import Mathlib

/-!
Verification of the citation-audit core of the LOCAL-SEO repository.

The Python modules under `execution/` are shallowly embedded here:

* `citation_audit_verify_nap.py` → namespace `NapVerify`
* `verify_url.py`                → namespace `UrlVerify`
* `citation_audit_discovery.py`  → namespace `Discovery`
* `discover_profile_url.py`      → namespace `ProfileDiscover`

Text is modelled as `List Char` (named `Str`), because the embedding must be
executable by kernel reduction.  Python string primitives (`lower`, `strip`,
`split`, `replace`, `in`, `startswith`, `endswith`, `title`) are given
structural-recursive models below, for ASCII text (all inputs relevant to the
claims are ASCII).  Network and third-party library effects (`requests`,
the scrape cascade, the fuzzy-match library, `json.loads` on free-form text)
are modelled as oracle parameters: a run of a function is its value at one
oracle.  Python `float` arithmetic on scores is modelled with exact rational
arithmetic, floored on conversion to `int`; no claim settled here depends on
sub-ulp float rounding.
-/

abbrev Str := List Char

namespace PyStr

/-- Python `needle in hay` (contiguous-substring test).  `"" in s` is `True`. -/
def isSubOf (needle hay : Str) : Bool :=
  match hay with
  | [] => needle.isEmpty
  | _ :: t => needle.isPrefixOf hay || isSubOf needle t

/-- Python `s.endswith t`. -/
def isSuffix (t s : Str) : Bool := t.reverse.isPrefixOf s.reverse

/-- Python `s.lower()` (ASCII). -/
def lower (s : Str) : Str := s.map Char.toLower

/-- Python `s.strip()`. -/
def trimWs (s : Str) : Str :=
  ((s.dropWhile Char.isWhitespace).reverse.dropWhile Char.isWhitespace).reverse

/-- Split at every character satisfying `p`, keeping empty fields
(model of `re.split` on a single-character class and of `s.split(c)`). -/
def splitOnChar (p : Char → Bool) (s : Str) : List Str :=
  match s with
  | [] => [[]]
  | c :: t =>
    let r := splitOnChar p t
    if p c then [] :: r
    else match r with
      | [] => [[c]]
      | h :: rt => (c :: h) :: rt

/-- Python `s.split()` — split on whitespace runs, dropping empty fields. -/
def wordsOf (s : Str) : List Str :=
  (splitOnChar Char.isWhitespace s).filter (fun w => !w.isEmpty)

/-- Python `sep.join(xs)`. -/
def strJoin (sep : Str) : List Str → Str
  | [] => []
  | [x] => x
  | x :: xs => x ++ sep ++ strJoin sep xs

/-- `normalize_text` collapses whitespace runs after lowering and stripping;
equivalently: lower, split on whitespace, re-join with single spaces. -/
def collapseWs (s : Str) : Str := strJoin [' '] (wordsOf s)

def replaceAllAux (pat rep : Str) : Nat → Str → Str
  | 0, s => s
  | _, [] => []
  | fuel + 1, c :: t =>
    if pat.isPrefixOf (c :: t) then rep ++ replaceAllAux pat rep fuel ((c :: t).drop pat.length)
    else c :: replaceAllAux pat rep fuel t

/-- Python `s.replace(pat, rep)` — replaces every occurrence, left to right.
(The Python sources never call `replace` with an empty pattern.) -/
def replaceAll (pat rep s : Str) : Str :=
  if pat.isEmpty then s else replaceAllAux pat rep s.length s

/-- Python `s.title()` (ASCII): a letter is uppercased when the preceding
character is not a letter, lowercased otherwise. -/
def titleCase (s : Str) : Str :=
  (s.foldl
    (fun (acc : Str × Bool) c =>
      let c2 := if c.isAlpha then (if acc.2 then c.toLower else c.toUpper) else c
      (acc.1 ++ [c2], c.isAlpha))
    ([], false)).1

/-- First occurrence split: `breakOn sep s = some (pre, post)` with
`s = pre ++ sep ++ post` at the leftmost occurrence of `sep`. -/
def breakOn (sep : Str) (s : Str) : Option (Str × Str) :=
  match s with
  | [] => if sep.isEmpty then some ([], []) else none
  | c :: t =>
    if sep.isPrefixOf (c :: t) then some ([], (c :: t).drop sep.length)
    else match breakOn sep t with
      | some (pre, post) => some (c :: pre, post)
      | none => none

/-- A valid URL scheme for `urllib.parse`: a letter followed by
letters/digits/`+`/`-`/`.`. -/
def validScheme (s : Str) : Bool :=
  match s with
  | [] => false
  | c :: t => c.isAlpha && t.all (fun ch => ch.isAlphanum || ch == '+' || ch == '-' || ch == '.')

/-- Model of `urllib.parse.urlparse(url).netloc`: the text between the
`scheme://` (or a leading `//`) and the next `/`, `?` or `#`; empty when the
URL has no network-location part. -/
def netlocOf (url : Str) : Str :=
  let upTo := fun (s : Str) => s.takeWhile (fun c => !(c == '/' || c == '?' || c == '#'))
  if ['/', '/'].isPrefixOf url then upTo (url.drop 2)
  else match breakOn [':'] url with
    | some (scheme, rest) =>
      if validScheme scheme && ['/', '/'].isPrefixOf rest then upTo (rest.drop 2) else []
    | none => []

/-- Python `re.sub(r'\D', '', s)`: keep only digits. -/
def digitsOf (s : Str) : Str := s.filter Char.isDigit

end PyStr

open PyStr

namespace NapVerify

/-! Embedding of `execution/citation_audit_verify_nap.py`.

`scrape_content` (the Camoufox/Cloudscraper/Jina cascade) is a network
effect and is modelled as an oracle `fetch : Str → Str` returning the content
the cascade produced for a URL (`""` when every method failed).
`fuzz.partial_ratio` is a third-party fuzzy-similarity library, modelled as an
oracle `pr : Str → Str → Nat` (cf. the 0–100 similarity interface).

A returned Python dict is modelled as `NapResult`; dict keys that a branch
does not emit (e.g. the field flags of the invalid-URL result) are modelled
as `none`, matching what callers observe through `.get`. -/

structure NapResult where
  status : Str
  confidence : Nat
  details : Str
  nap_name_ok : Option Bool
  nap_address_ok : Option Bool
  nap_phone_ok : Option Bool
  nap_website_ok : Option Bool
deriving DecidableEq

/-- `normalize_text`: lower-case, strip, collapse whitespace runs. -/
def normalize_text (t : Str) : Str := collapseWs (lower t)

/-- `normalize_phone`: strip all non-digits. -/
def normalize_phone (p : Str) : Str := digitsOf p

def BLOCK_KEYWORDS : List Str :=
  ["403 forbidden".toList, "access denied".toList, "you are blocked".toList,
   "captcha required".toList, "verify you are human".toList, "just a moment".toList,
   "enable javascript".toList]

/-- Soft-block detection (line 149): a block keyword present AND the
normalized content shorter than 2000 characters. -/
def blockDetected (content_norm : Str) : Bool :=
  BLOCK_KEYWORDS.any (fun k => isSubOf k content_norm) && content_norm.length < 2000

/-- Details string of the blocked branch:
`f'Scraper blocked by {domain.split(".")[0].title()}. ...'`. -/
def blockedDetails (url : Str) : Str :=
  let domain := lower (netlocOf url)
  "Scraper blocked by ".toList ++ titleCase ((splitOnChar (· == '.') domain).headD [])
    ++ ". NAP checks require manual verification.".toList

/-- Phone score (lines 165-174): 100 iff the stored phone normalizes to at
least 10 digits and that digit string occurs contiguously in the digit
stream of the raw content. -/
def phoneScoreOf (phone content : Str) : Nat :=
  let phone_norm := normalize_phone phone
  if !phone_norm.isEmpty && phone_norm.length ≥ 10
      && isSubOf phone_norm (digitsOf content) then 100 else 0

/-- Address score (lines 181-194): percentage of non-empty address parts
whose normalized text occurs in the normalized content (floored `int`). -/
def addressScoreOf (address_parts : List Str) (content_norm : Str) : Nat :=
  let parts := address_parts.filter (fun p => !p.isEmpty)
  let total := parts.length
  let hits := (parts.filter (fun p => isSubOf (normalize_text p) content_norm)).length
  if total > 0 then (hits * 100) / total else 0

/-- The "visit our website"-style phrase list (lines 207-229).  The source
computes `phrase_found` from it but the final decision ignores it. -/
def website_phrases : List Str :=
  ["visit website".toList, "view website".toList, "go to website".toList, "website:".toList,
   "visit site".toList, "view site".toList, "go to site".toList, "official website".toList,
   "click to visit".toList, "click here to visit".toList, "click to view".toList,
   "visit their website".toList, "view their website".toList, "their website".toList,
   "visit our website".toList, "our website".toList, "my website".toList,
   "business website".toList, "practice website".toList, "clinic website".toList,
   "office website".toList, "company website".toList, "doctor website".toList,
   "dentist website".toList, "www.".toList, "http://".toList, "https://".toList,
   "homepage".toList, "home page".toList, "main site".toList,
   "learn more at".toList, "find us at".toList, "see us at".toList,
   "get directions".toList, "contact us online".toList, "book online".toList,
   "schedule online".toList, "request appointment".toList, "online booking".toList,
   "external link".toList, "opens in new".toList, "new window".toList, "new tab".toList,
   "[website]".toList, "(website)".toList, "web:".toList, "url:".toList,
   "visit now".toList, "go now".toList, "click here".toList]

/-- `phrase_found` of lines 230: some phrase occurs in the normalized content.
Computed by the source and then never used (line 232-239 decide on the
domain alone). -/
def websitePhraseFound (content_norm : Str) : Bool :=
  website_phrases.any (fun p => isSubOf p content_norm)

/-- The website domain used for the check: `urlparse(w).netloc.lower()`
with every `"www."` occurrence removed. -/
def websiteDomainOf (website_url : Str) : Str :=
  replaceAll "www.".toList [] (lower (netlocOf website_url))

/-- Website flag (lines 196-241): `None` when no website URL was supplied
(Python falsy, so also for the empty string); otherwise `True` iff the
non-empty website domain literally occurs in the normalized content, and
`False` otherwise — the phrase list does not contribute. -/
def websiteOkOf (website_url : Option Str) (content_norm : Str) : Option Bool :=
  match website_url with
  | none => none
  | some w =>
    if w.isEmpty then none
    else
      let d := websiteDomainOf w
      some (!d.isEmpty && isSubOf d content_norm)

/-- Weighted confidence (lines 243-249): `0.5*phone + 0.3*name + 0.2*address`,
floored to `int`; raised to at least 90 when the phone matched.  Modelled with
exact arithmetic scaled by 10. -/
def confidenceOf (phone_score name_score address_score : Nat) : Nat :=
  let base := (phone_score * 5 + name_score * 3 + address_score * 2) / 10
  if phone_score == 100 then max base 90 else base

/-- `generate_detailed_description` (lines 276-314).  The `content` argument
of the source is unused by its body and is omitted here. -/
def generate_detailed_description (phone_found : Bool) (name_score address_score : Nat)
    (website_ok : Option Bool) : Str :=
  let l1 := if name_score ≥ 90 then "✓ Name: Found exactly".toList
    else if name_score ≥ 80 then "✓ Name: Partial match".toList
    else if name_score ≥ 70 then "⚠ Name: Weak match".toList
    else "✗ Name: Not found".toList
  let l2 := if address_score ≥ 80 then "✓ Address: Found".toList
    else if address_score ≥ 60 then "⚠ Address: Partial".toList
    else "✗ Address: Not found".toList
  let l3 := if phone_found then "✓ Phone: Verified".toList else "✗ Phone: Not found".toList
  let l4 := match website_ok with
    | some true => "✓ Website: Link found".toList
    | some false => "✗ Website: Not found".toList
    | none => "— Website: Not checked".toList
  strJoin " | ".toList [l1, l2, l3, l4]

/-- The result of the invalid-URL early return (line 135). -/
def invalidUrlResult : NapResult :=
  ⟨"not_found".toList, 0, "Invalid URL".toList, none, none, none, none⟩

/-- The result of the empty-content return (line 142). -/
def scrapeErrorResult : NapResult :=
  ⟨"error".toList, 0, "Could not scrape page".toList, none, none, none, none⟩

/-- The result of the soft-block return (lines 154-162): the status is kept
as `'found'` — the source comment says the URL itself is valid even though
the scraper was blocked. -/
def blockedResult (u : Str) : NapResult :=
  ⟨"found".toList, 0, blockedDetails u, none, none, none, none⟩

/-- The result of the normal scoring path (lines 164-273). -/
def scoredResult (fetch : Str → Str) (pr : Str → Str → Nat)
    (u business_name phone : Str) (address_parts : List Str)
    (website_url : Option Str) : NapResult :=
  let content := fetch u
  let content_norm := normalize_text content
  let phone_score := phoneScoreOf phone content
  let name_score := pr (normalize_text business_name) content_norm
  let address_score := addressScoreOf address_parts content_norm
  let website_ok := websiteOkOf website_url content_norm
  ⟨"found".toList, confidenceOf phone_score name_score address_score,
    generate_detailed_description (phone_score == 100) name_score address_score website_ok,
    some (name_score ≥ 80), some (address_score ≥ 60),
    some (phone_score == 100), website_ok⟩

/-- `verify_nap(url, business_name, phone, address_parts, website_url)`.
`url = none` models Python `None`; the `fetch` and `pr` oracles stand for the
scrape cascade and the fuzzy-match library. -/
def verify_nap (fetch : Str → Str) (pr : Str → Str → Nat)
    (url : Option Str) (business_name phone : Str) (address_parts : List Str)
    (website_url : Option Str) : NapResult :=
  match url with
  | none => invalidUrlResult
  | some u =>
    if u.isEmpty || !("http".toList.isPrefixOf u) then invalidUrlResult
    else if (fetch u).isEmpty then scrapeErrorResult
    else if blockDetected (normalize_text (fetch u)) then blockedResult u
    else scoredResult fetch pr u business_name phone address_parts website_url

end NapVerify

namespace UrlVerify

/-! Embedding of `execution/verify_url.py`.

The three network interactions of a run are modelled by a `World`:
`preCheck` is the status of the initial `requests.get(url, stream=True)`
(line 113), `jina` the status and body of the `r.jina.ai` fetch (line 128),
and `req` the status and body of the fallback `requests.get(url)` (line 153).
`Except.error` models a raised exception.  The `log` list of the returned
dict (debug strings, including stringified exceptions) is not modelled. -/

structure World where
  preCheck : Except Unit Nat
  jina : Except Unit (Nat × Str)
  req : Except Unit (Nat × Str)

structure VResult where
  verified : Bool
  reason : Option Str
  method : Option Str
deriving DecidableEq

def error_phrases : List Str :=
  ["page not found".toList, "provider not found".toList, "we couldn\x27t find".toList,
   "we could not find".toList, "no results for".toList, "doesn\x27t exist".toList,
   "does not exist".toList, "error 404".toList, "404 error".toList,
   "page unavailable".toList, "profile not found".toList,
   "find a doctor - doctor reviews".toList]

/-- `is_soft_404`: lower the content, drop Jina metadata lines, look for one
of the error phrases. -/
def is_soft_404 (content : Str) : Bool :=
  let c := lower content
  let kept := (splitOnChar (· == '\n') c).filter
    (fun l => !("url source:".toList.isPrefixOf l) && !("title:".toList.isPrefixOf l))
  let c2 := strJoin ['\n'] kept
  error_phrases.any (fun p => isSubOf p c2)

def search_indicators : List Str :=
  ["search results for".toList, "results for".toList, "find a doctor".toList,
   "best doctors in".toList, "top rated".toList, "list of".toList,
   "directory of".toList, "matching results".toList, "providers found".toList]

/-- `is_search_result_page(content, title="")`. -/
def is_search_result_page (content title : Str) : Bool :=
  let c := lower content
  let t := lower title
  if "search".toList.isPrefixOf t || "find".toList.isPrefixOf t
      || isSubOf "search results".toList t then true
  else search_indicators.any (fun i => isSubOf i (c.take 1000))

/-- `check_text(content, required_text, name_parts)`.  Note the Python
quirk: when no name part is longer than 2 characters, `all(...)` over the
empty generator is `True`. -/
def check_text (content required_text : Str) (name_parts : List Str) : Bool :=
  if is_soft_404 content then false
  else if is_search_result_page content [] then false
  else
    let c := lower content
    let cr := lower required_text
    if isSubOf cr c then true
    else (name_parts.filter (fun p => p.length > 2)).all (fun p => isSubOf p c)

/-- Step 3 of `verify_url` (lines 175-193): slug matching against the URL.
Every control path that reaches this step has set
`request_failed_but_not_404 = True`, so the guard is always taken there. -/
def slugStep (url clean_req : Str) (name_parts : List Str) : VResult :=
  let slug := (splitOnChar (· == '?') (lower url)).headD []
  if isSubOf (replaceAll [' '] ['-'] clean_req) slug
      || isSubOf (replaceAll [' '] [] clean_req) slug then
    ⟨true, none, some "slug_match".toList⟩
  else if (name_parts.filter (fun p => p.length > 2)).all (fun p => isSubOf p slug) then
    ⟨true, none, some "slug_parts_match".toList⟩
  else ⟨false, some "Verification failed".toList, none⟩

/-- Step 2 of `verify_url` (lines 147-173): the fallback `requests.get`,
whose outcome is the `req` argument. -/
def requestsStep (req : Except Unit (Nat × Str)) (url clean_req : Str)
    (name_parts : List Str) : VResult :=
  match req with
  | .ok (status, body) =>
    if status == 200 then
      if check_text body clean_req name_parts then ⟨true, none, some "requests".toList⟩
      else slugStep url clean_req name_parts
    else if status == 404 || status == 410 then
      ⟨false, some "Dead Link (404/410)".toList, none⟩
    else slugStep url clean_req name_parts
  | .error _ => slugStep url clean_req name_parts

/-- Step 1 of `verify_url` (lines 124-145): the Jina reader fetch, whose
outcome is the `jina` argument.  When Jina fetched content (status 200) but
the text was not found, the run rejects without falling back. -/
def jinaStep (jina req : Except Unit (Nat × Str)) (url clean_req : Str)
    (name_parts : List Str) : VResult :=
  match jina with
  | .ok (status, body) =>
    if status == 200 then
      if check_text body clean_req name_parts then ⟨true, none, some "jina".toList⟩
      else ⟨false, some "Text not found (Jina)".toList, none⟩
    else requestsStep req url clean_req name_parts
  | .error _ => requestsStep req url clean_req name_parts

/-- Step 0 of `verify_url` (lines 107-122): the status pre-check, whose
outcome is the `pre` argument. -/
def preCheckStep (pre : Except Unit Nat) (jina req : Except Unit (Nat × Str))
    (url clean_req : Str) (name_parts : List Str) : VResult :=
  match pre with
  | .ok status =>
    if status == 404 || status == 410 then ⟨false, some "Dead Link (404/410)".toList, none⟩
    else jinaStep jina req url clean_req name_parts
  | .error _ => jinaStep jina req url clean_req name_parts

/-- Normalisation of the required text (line 102): lower, drop `dr.`/`dr `
occurrences, strip. -/
def cleanReqOf (required_text : Str) : Str :=
  trimWs (replaceAll "dr ".toList [] (replaceAll "dr.".toList [] (lower required_text)))

/-- `verify_url(url, required_text)`. -/
def verify_url (w : World) (url required_text : Str) : VResult :=
  if url.isEmpty || required_text.isEmpty then ⟨false, some "Missing input".toList, none⟩
  else preCheckStep w.preCheck w.jina w.req url (cleanReqOf required_text)
    (wordsOf (cleanReqOf required_text))

end UrlVerify

namespace Discovery

/-! Embedding of `execution/citation_audit_discovery.py`. -/

/-- `domain_matches_name(domain, name)` (lines 47-96). -/
def domain_matches_name (domain name : Str) : Bool :=
  if domain.isEmpty || name.isEmpty then false
  else
    let target0 := lower domain
    let tlds := [".com".toList, ".org".toList, ".net".toList, ".edu".toList, ".gov".toList,
      ".io".toList, ".co".toList, ".us".toList, ".uk".toList]
    -- strip only the first TLD in list order that matches (the loop breaks)
    let target := match tlds.find? (fun t => isSuffix t target0) with
      | some t => target0.take (target0.length - t.length)
      | none => target0
    let clean_name := (lower name).filter
      (fun c => c.isAlphanum || c == '_' || c.isWhitespace)
    let words := wordsOf clean_name
    let stop_words := ["the".toList, "and".toList, "or".toList, "of".toList, "for".toList,
      "in".toList, "a".toList, "an".toList, "at".toList, "to".toList, "by".toList,
      "inc".toList, "llc".toList, "ltd".toList, "com".toList, "org".toList, "net".toList]
    let significant := words.filter (fun w => !stop_words.contains w)
    let acronymHit :=
      if significant.length > 1 then
        let acronym := significant.foldr (fun w acc => w.take 1 ++ acc) []
        if acronym.length ≥ 2 then
          let tokens := splitOnChar (fun c => c == '.' || c == '-') target
          tokens.contains acronym || acronym.isPrefixOf target
        else false
      else false
    if acronymHit then true
    else
      let hits := (significant.filter (fun w => w.length > 2 && isSubOf w target)).length
      if significant.length ≤ 2 then hits ≥ 1 else hits ≥ 2

/-- The dynamically built foreign-TLD exclusion list of
`clean_and_validate_directories` (lines 165-181): only TLDs foreign to the
target country are listed. -/
def bad_tlds (country : Str) : List Str :=
  let c := lower country
  (if !isSubOf "australia".toList c then [".au".toList, ".com.au".toList] else []) ++
  (if !isSubOf "united kingdom".toList c && !isSubOf "uk".toList c then
    [".uk".toList, ".co.uk".toList] else []) ++
  (if !isSubOf "canada".toList c then [".ca".toList] else []) ++
  (if !isSubOf "germany".toList c then [".de".toList] else []) ++
  (if !isSubOf "france".toList c then [".fr".toList] else []) ++
  (if !isSubOf "india".toList c then [".in".toList, ".co.in".toList] else [])

/-- The international-TLD rejection test of line 260: some bad TLD is a
suffix of the lowered URL, or occurs inside it followed by `/`. -/
def excluded_by_foreign_tld (url country : Str) : Bool :=
  (bad_tlds country).any
    (fun tld => isSuffix tld (lower url) || isSubOf (tld ++ ['/']) (lower url))

/-- A raw directory entry as consumed by the validation loop
(`d.get('name','')`, `d.get('url','')`). -/
structure DirEntry where
  name : Str
  url : Str
  category : Str
deriving DecidableEq

/-- A minimal JSON value model for the collaborator responses. -/
inductive PJson where
  | obj (fields : List (Str × PJson))
  | arr (items : List PJson)
  | str (s : Str)
  | other

def getKey (j : PJson) (k : Str) : Option PJson :=
  match j with
  | .obj fields => (fields.find? (fun f => f.1 == k)).map (·.2)
  | _ => none

def getIndex (j : PJson) (i : Nat) : Option PJson :=
  match j with
  | .arr items => items.get? i
  | _ => none

def asStr (j : PJson) : Option Str :=
  match j with
  | .str s => some s
  | _ => none

/-- `data['choices'][0]['message']['content']` (line 502); `none` models the
`KeyError`/`IndexError`/`TypeError` a differently-shaped value raises. -/
def extract_content (data : PJson) : Option Str := do
  let choices ← getKey data "choices".toList
  let first ← getIndex choices 0
  let msg ← getKey first "message".toList
  asStr (← getKey msg "content".toList)

/-- Line 504: strip markdown code fences from the model output. -/
def stripFences (content : Str) : Str :=
  trimWs (replaceAll "```".toList [] (replaceAll "```json".toList [] content))

/-- Lines 509-512: unwrap `{"directories": [...]}`, accept a bare list, and
read each entry with `d.get(key, '')`.  `none` models the exception raised
inside the validation loop when the parsed value is not a list of dicts
(e.g. `AttributeError` on `d.get`). -/
def entriesOf (dirsJson : PJson) : Option (List DirEntry) :=
  let listPart := match dirsJson with
    | .obj fields => match getKey (.obj fields) "directories".toList with
      | some v => v
      | none => .arr []
    | v => v
  match listPart with
  | .arr items => items.mapM (fun it => match it with
      | .obj fields =>
        let getS := fun (k : String) => match getKey (.obj fields) k.toList with
          | some (.str s) => s
          | _ => []
        some ⟨getS "name", getS "url", getS "category"⟩
      | _ => none)
  | _ => none

/-- Oracle for the effects of `discover_directories`: the Perplexity POST
(`Except.error` = exception; otherwise status code and the result of
`response.json()`, `none` = unparseable), the `json.loads` call on the
extracted content string, and the network-dependent
`clean_and_validate_directories` pass. -/
structure DiscoveryOracle where
  post : Except Unit (Nat × Option PJson)
  loads : Str → Option PJson
  validate : List DirEntry → List DirEntry

/-- The body of `discover_directories` inside its outer `try` (lines
310-518).  `Except.error` marks every point where the Python body raises
(and is then caught by the outer handler). -/
def discover_directories_body (o : DiscoveryOracle) : Except Unit (List DirEntry) :=
  match o.post with
  | .error _ => .error ()
  | .ok (status, jsonRes) =>
    if status != 200 then .ok []
    else match jsonRes with
      | none => .error ()               -- response.json() failed: `raise e`
      | some data =>
        match extract_content data with
        | none => .error ()             -- missing/ill-typed 'choices' chain
        | some content =>
          match o.loads (stripFences content) with
          | none => .error ()           -- json.loads failed
          | some dirsJson =>
            match entriesOf dirsJson with
            | none => .error ()         -- not a list of dicts
            | some directories => .ok (o.validate directories)

/-- `discover_directories`: the outer `try/except` returns `[]` on any
raised exception. -/
def discover_directories (o : DiscoveryOracle) : List DirEntry :=
  match discover_directories_body o with
  | .ok l => l
  | .error _ => []

end Discovery

namespace ProfileDiscover

/-! Embedding of `execution/discover_profile_url.py`.

`search_serper` (Serper web search plus its result filtering) is a network
effect, modelled as an oracle `search : Str → Str → List SearchResult`
mapping a query and the `gl` country code to the returned result list.
The source also defines `validate_and_extract_profile` (a BeautifulSoup
page fetch) and `search_directory_directly` (an internal-search fetch);
their would-be outcomes are carried in the oracle as `validate` and
`direct` so that theorems can speak about whether a run depends on them.
The statements after the `return` of line 553 (lines 560-586) are
unreachable and therefore contribute nothing to the behaviour embedded in
`discover_profile_url` below. -/

structure SearchResult where
  url : Str
  title : Str
  snippet : Str
deriving DecidableEq

structure DiscoverResult where
  status : Str
  url : Str
  title : Str
  match_reason : Str
  candidates : List SearchResult
deriving DecidableEq

structure DiscoverOracle where
  search : Str → Str → List SearchResult
  validate : Str → Bool
  direct : Option (Str × Str)

/-- `normalize_name` (lines 25-35): lower; strip a leading `dr` with optional
dot and following whitespace; strip a trailing credential
(`md|dds|dmd|do|phd|facs`) preceded by whitespace, with optional dot;
remove punctuation; strip. -/
def stripDr (s : Str) : Str :=
  if "dr".toList.isPrefixOf s then
    let r := s.drop 2
    (if ['.'].isPrefixOf r then r.drop 1 else r).dropWhile Char.isWhitespace
  else s

def credentials : List Str :=
  ["md".toList, "dds".toList, "dmd".toList, "do".toList, "phd".toList, "facs".toList]

/-- Does `\s+ c \.? $` match the end of `s`: the string ends in the
credential `c`, or in `c` plus a dot, preceded by a whitespace character?
(`headD 'x'` makes the test fail when nothing precedes the credential.) -/
def credEndsWithDot (c s : Str) : Bool :=
  isSuffix (c ++ ['.']) s
    && ((s.take (s.length - c.length - 1)).reverse.headD 'x').isWhitespace

def credEndsPlain (c s : Str) : Bool :=
  isSuffix c s && ((s.take (s.length - c.length)).reverse.headD 'x').isWhitespace

/-- At most one credential can match (no credential is a whitespace-preceded
suffix of another), so taking the first match realises the regex. -/
def stripCred (s : Str) : Str :=
  match credentials.find? (fun c => credEndsPlain c s || credEndsWithDot c s) with
  | some c =>
    let base := if credEndsWithDot c s then s.take (s.length - c.length - 1)
      else s.take (s.length - c.length)
    -- the greedy `\s+` removes every whitespace character before the credential
    (base.reverse.dropWhile Char.isWhitespace).reverse
  | none => s

def normalize_name (name : Str) : Str :=
  trimWs ((stripCred (stripDr (lower name))).filter
    (fun c => c.isAlphanum || c == '_' || c.isWhitespace))

/-- `name_in_text(name, text)` (lines 38-76). -/
def name_in_text (name text : Str) : Bool :=
  if name.isEmpty || text.isEmpty then false
  else
    let name_norm := normalize_name name
    let text_lower := lower text
    if isSubOf name_norm text_lower then true
    else
      let parts := (wordsOf name_norm).filter (fun p => p.length > 2)
      if parts.length ≥ 2 then
        (isSubOf (strJoin [' '] (parts.take 2)) text_lower)
        || (parts.length ≥ 3 && isSubOf (strJoin [' '] (parts.take 3)) text_lower)
      else if parts.length == 1 then
        (wordsOf text_lower).contains (parts.headD [])
      else false

def skip_domains : List Str :=
  ["google.com".toList, "business.google.com".toList, "google.com/maps".toList,
   "facebook.com".toList, "caredash.com".toList]

def domain_corrections : List (Str × Str) :=
  [("american dental association".toList, "ada.org".toList),
   ("ada find-a-dentist".toList, "ada.org".toList),
   ("academy of general dentistry".toList, "agd.org".toList),
   ("american academy of cosmetic dentistry".toList, "aacd.com".toList),
   ("american academy of implant dentistry".toList, "aaid.com".toList),
   ("better business bureau".toList, "bbb.org".toList)]

/-- Lines 394-401: the first correction whose keyword occurs in the lowered
directory name replaces the domain (replacing by an equal value when they
already agree). -/
def correctedDomain (directory_name directory_domain : Str) : Str :=
  match domain_corrections.find? (fun kv => isSubOf kv.1 (lower directory_name)) with
  | some kv => kv.2
  | none => directory_domain

/-- Lines 409-415: the location term of the query. -/
def locationTerm (city state country : Str) : Str :=
  let is_us := country.isEmpty
    || ["united states".toList, "usa".toList, "us".toList,
        "united states of america".toList].contains (trimWs (lower country))
  if is_us then city ++ [' '] ++ state else country

/-- Lines 426-435: the `gl` country code passed to the search. -/
def glParam (country : Str) : Str :=
  if country.isEmpty then "us".toList
  else
    let c := trimWs (lower country)
    if ["australia".toList, "au".toList].contains c then "au".toList
    else if ["canada".toList, "ca".toList].contains c then "ca".toList
    else if ["united kingdom".toList, "uk".toList, "gb".toList,
      "great britain".toList].contains c then "uk".toList
    else if ["new zealand".toList, "nz".toList].contains c then "nz".toList
    else if ["ireland".toList, "ie".toList].contains c then "ie".toList
    else if ["india".toList, "in".toList].contains c then "in".toList
    else "us".toList

/-- The primary query (line 418), double spaces collapsed (line 421). -/
def primaryQuery (domain search_name location_term : Str) : Str :=
  strJoin [' '] (wordsOf ("site:".toList ++ domain ++ " \"".toList ++ search_name
    ++ ['"', ' '] ++ location_term))

/-- The fallback query of line 444 (built without space collapsing). -/
def fallbackQuery (domain search_name : Str) : Str :=
  "site:".toList ++ domain ++ " \"".toList ++ search_name ++ ['"']

/-- Lines 440-446: primary search, then if empty and a location term was
used, one retry without the location term. -/
def searchResultsOf (search : Str → Str → List SearchResult)
    (directory_name directory_domain business_name doctor_name city state country : Str) :
    List SearchResult :=
  let domain := correctedDomain directory_name directory_domain
  let search_name := if !doctor_name.isEmpty then doctor_name else business_name
  let location_term := locationTerm city state country
  let gl := glParam country
  let results := search (primaryQuery domain search_name location_term) gl
  if results.isEmpty && !location_term.isEmpty then
    search (fallbackQuery domain search_name) gl
  else results

def list_patterns : List Str :=
  ["/top-".toList, "/best-".toList, "/list".toList, "/find-".toList,
   "-near-".toList, "-in-".toList]

/-- Classification of one result (lines 469-512). -/
def isProfileMatch (business_name : Str) (r : SearchResult) : Bool :=
  let url_lower := lower r.url
  let name_parts := (wordsOf (normalize_name business_name)).filter
    (fun p => p.length > 2 && !(["the".toList, "and".toList, "of".toList].contains p))
  let slugHit := name_parts.length ≥ 2
    && isSubOf (strJoin ['-'] (name_parts.take 2)) url_lower
  let is_list := list_patterns.any (fun p => isSubOf p url_lower)
  slugHit || name_in_text business_name r.title
    || (is_list && (name_in_text business_name r.title || name_in_text business_name r.snippet))

def isDoctorMatch (doctor_name : Str) (r : SearchResult) : Bool :=
  !doctor_name.isEmpty
    && (name_in_text doctor_name r.title || name_in_text doctor_name r.snippet)

def isListMatch (business_name : Str) (r : SearchResult) : Bool :=
  (list_patterns.any (fun p => isSubOf p (lower r.url)))
    && (name_in_text business_name r.title || name_in_text business_name r.snippet)

def profileMatchesOf (business_name : Str) (results : List SearchResult) :
    List SearchResult :=
  results.filter (isProfileMatch business_name)

def doctorMatchesOf (business_name doctor_name : Str) (results : List SearchResult) :
    List SearchResult :=
  results.filter (fun r => !isProfileMatch business_name r
    && isDoctorMatch doctor_name r)

/-- Note: a result reaches the `elif is_list` branch only with the business
name absent from title and snippet, which the branch then requires — so this
list is always empty; the faithful translation keeps it. -/
def listMatchesOf (business_name doctor_name : Str) (results : List SearchResult) :
    List SearchResult :=
  results.filter (fun r => !isProfileMatch business_name r
    && !isDoctorMatch doctor_name r && isListMatch business_name r)

/-- `discover_profile_url(directory_name, directory_domain, business_name,
doctor_name, city, state, country)` (lines 358-586, of which lines 560-586
are unreachable).  Fields a returned dict does not carry are modelled as
`[]`. -/
def discover_profile_url (o : DiscoverOracle)
    (directory_name directory_domain business_name doctor_name city state country : Str) :
    DiscoverResult :=
  if skip_domains.contains directory_domain then
    ⟨"not_searchable".toList, [], [], "gbp_not_searchable".toList, []⟩
  else
    let results := searchResultsOf o.search directory_name directory_domain business_name
      doctor_name city state country
    if results.isEmpty then
      ⟨"not_found".toList, [], [], "no_results".toList, []⟩
    else
      let profile_matches := profileMatchesOf business_name results
      let doctor_matches := doctorMatchesOf business_name doctor_name results
      let list_matches := listMatchesOf business_name doctor_name results
      let all_candidates := profile_matches ++ doctor_matches ++ list_matches
      match profile_matches with
      | best :: _ =>
        ⟨"found".toList, best.url, best.title, "profile_match".toList, all_candidates⟩
      | [] =>
        match doctor_matches with
        | best :: _ =>
          ⟨"found".toList, best.url, best.title, "doctor_match".toList, all_candidates⟩
        | [] =>
          match list_matches with
          | best :: _ =>
            ⟨"found".toList, best.url, best.title, "list_match".toList, all_candidates⟩
          | [] =>
            -- line 553: unconditional return; the BeautifulSoup validation of
            -- the uncertain results and the direct directory search below it
            -- (lines 560-586) can never run
            ⟨"not_found".toList, [], [], "uncertain_results".toList, results⟩

end ProfileDiscover

/-! ## Helper lemmas -/

theorem scoredResult_nap_phone_ok (fetch : Str → Str) (pr : Str → Str → Nat)
    (u business_name phone : Str) (address_parts : List Str) (website_url : Option Str) :
    (NapVerify.scoredResult fetch pr u business_name phone address_parts
      website_url).nap_phone_ok
      = some (NapVerify.phoneScoreOf phone (fetch u) == 100) := rfl

theorem scoredResult_confidence (fetch : Str → Str) (pr : Str → Str → Nat)
    (u business_name phone : Str) (address_parts : List Str) (website_url : Option Str) :
    (NapVerify.scoredResult fetch pr u business_name phone address_parts
      website_url).confidence
      = NapVerify.confidenceOf (NapVerify.phoneScoreOf phone (fetch u))
          (pr (NapVerify.normalize_text business_name) (NapVerify.normalize_text (fetch u)))
          (NapVerify.addressScoreOf address_parts (NapVerify.normalize_text (fetch u))) := rfl

theorem scoredResult_nap_website_ok (fetch : Str → Str) (pr : Str → Str → Nat)
    (u business_name phone : Str) (address_parts : List Str) (website_url : Option Str) :
    (NapVerify.scoredResult fetch pr u business_name phone address_parts
      website_url).nap_website_ok
      = NapVerify.websiteOkOf website_url (NapVerify.normalize_text (fetch u)) := rfl

/-- Branch characterisation of `verify_nap` for a valid URL with non-empty,
non-blocked content: the result is the scored record. -/
theorem verify_nap_scored (fetch : Str → Str) (pr : Str → Str → Nat)
    (u business_name phone : Str) (address_parts : List Str) (website_url : Option Str)
    (hval : "http".toList.isPrefixOf u = true)
    (hc : (fetch u).isEmpty = false)
    (hb : NapVerify.blockDetected (NapVerify.normalize_text (fetch u)) = false) :
    NapVerify.verify_nap fetch pr (some u) business_name phone address_parts website_url
      = NapVerify.scoredResult fetch pr u business_name phone address_parts website_url := by
  have hne : u.isEmpty = false := by
    cases u with
    | nil => exact absurd hval (by decide)
    | cons c t => rfl
  simp only [NapVerify.verify_nap]
  rw [if_neg (by rw [hne, hval]; decide), if_neg (by rw [hc]; decide),
    if_neg (by rw [hb]; decide)]

/-! ## Theorems for the claims -/

/-- Claim C1: for every result returned by `verify_nap`, if the phone field
flag is true (`nap_phone_ok == true`) then the returned confidence is at
least 90 (strong-signal floor), over every fetch outcome and every fuzzy
similarity. -/
theorem c1_phone_ok_confidence_floor (fetch : Str → Str) (pr : Str → Str → Nat)
    (url : Option Str) (business_name phone : Str) (address_parts : List Str)
    (website_url : Option Str)
    (h : (NapVerify.verify_nap fetch pr url business_name phone address_parts
      website_url).nap_phone_ok = some true) :
    90 ≤ (NapVerify.verify_nap fetch pr url business_name phone address_parts
      website_url).confidence := by
  cases url with
  | none =>
    simp only [NapVerify.verify_nap] at h
    exact absurd h (by simp [NapVerify.invalidUrlResult])
  | some u =>
    simp only [NapVerify.verify_nap] at h ⊢
    by_cases hv : (u.isEmpty || !("http".toList.isPrefixOf u)) = true
    · rw [if_pos hv] at h
      exact absurd h (by simp [NapVerify.invalidUrlResult])
    · rw [if_neg hv] at h ⊢
      by_cases hc : (fetch u).isEmpty = true
      · rw [if_pos hc] at h
        exact absurd h (by simp [NapVerify.scrapeErrorResult])
      · rw [if_neg hc] at h ⊢
        by_cases hb : NapVerify.blockDetected (NapVerify.normalize_text (fetch u)) = true
        · rw [if_pos hb] at h
          exact absurd h (by simp [NapVerify.blockedResult])
        · rw [if_neg hb] at h ⊢
          rw [scoredResult_nap_phone_ok] at h
          rw [scoredResult_confidence]
          have hps : (NapVerify.phoneScoreOf phone (fetch u) == 100) = true :=
            Option.some.inj h
          unfold NapVerify.confidenceOf
          rw [if_pos hps]
          exact Nat.le_max_right _ 90

/-- Witness for C1 at a concrete run: the phone digits appear in the page,
the flag is true and the confidence is at least 90. -/
theorem c1_phone_ok_confidence_floor_witness :
    (NapVerify.verify_nap (fun _ => "call 512 555 0100 today".toList) (fun _ _ => 0)
      (some "http://x.com/p".toList) "Acme Dental".toList "512-555-0100".toList []
      none).nap_phone_ok = some true ∧
    90 ≤ (NapVerify.verify_nap (fun _ => "call 512 555 0100 today".toList) (fun _ _ => 0)
      (some "http://x.com/p".toList) "Acme Dental".toList "512-555-0100".toList []
      none).confidence :=
  ⟨by decide,
   c1_phone_ok_confidence_floor (fun _ => "call 512 555 0100 today".toList) (fun _ _ => 0)
     (some "http://x.com/p".toList) "Acme Dental".toList "512-555-0100".toList []
     none (by decide)⟩

/-- Claim C2: whenever an HTTP request for the target URL returns 404 or 410
— at the pre-check, or at the fallback request reached because the pre-check
saw neither code and Jina did not return a 200 — `verify_url` resolves to
not verified with the terminal dead-link reason, and no slug-based method is
applied (the `method` field is `none`), for every URL, including one whose
slug contains the business name. -/
theorem c2_dead_link_terminal (w : UrlVerify.World) (url required_text : Str)
    (hu : url.isEmpty = false) (ht : required_text.isEmpty = false)
    (h : (∃ s, w.preCheck = Except.ok s ∧ (s = 404 ∨ s = 410)) ∨
      ((∀ s, w.preCheck = Except.ok s → s ≠ 404 ∧ s ≠ 410) ∧
       (∀ b, w.jina ≠ Except.ok (200, b)) ∧
       (∃ s b, w.req = Except.ok (s, b) ∧ (s = 404 ∨ s = 410)))) :
    UrlVerify.verify_url w url required_text
      = ⟨false, some "Dead Link (404/410)".toList, none⟩ := by
  unfold UrlVerify.verify_url
  rw [if_neg (by rw [hu, ht]; decide)]
  rcases h with ⟨s, hpre, hs⟩ | ⟨hpre, hjina, s, b, hreq, hs⟩
  · rw [hpre]
    rcases hs with rfl | rfl <;> rfl
  · have hreqStep : ∀ (cr : Str) (np : List Str),
        UrlVerify.requestsStep w.req url cr np
          = (⟨false, some "Dead Link (404/410)".toList, none⟩ : UrlVerify.VResult) := by
      intro cr np
      rw [hreq]
      rcases hs with rfl | rfl <;> rfl
    have hjinaStep : ∀ (cr : Str) (np : List Str),
        UrlVerify.jinaStep w.jina w.req url cr np
          = (⟨false, some "Dead Link (404/410)".toList, none⟩ : UrlVerify.VResult) := by
      intro cr np
      cases hjv : w.jina with
      | error e => simp only [UrlVerify.jinaStep]; exact hreqStep cr np
      | ok p =>
        obtain ⟨st, body⟩ := p
        simp only [UrlVerify.jinaStep]
        have hst : (st == 200) = false := by
          cases hst200 : st == 200 with
          | false => rfl
          | true =>
            rw [eq_of_beq hst200] at hjv
            exact absurd hjv (hjina body)
        rw [if_neg (by rw [hst]; decide)]
        exact hreqStep cr np
    cases hpv : w.preCheck with
    | error e =>
      simp only [UrlVerify.preCheckStep]
      exact hjinaStep _ _
    | ok s2 =>
      obtain ⟨h404, h410⟩ := hpre s2 hpv
      simp only [UrlVerify.preCheckStep]
      rw [if_neg (by
        simp only [Bool.or_eq_true, beq_iff_eq]
        exact fun hor => hor.elim h404 h410)]
      exact hjinaStep _ _

/-- Witness for C2: the pre-check returns 404 for a dead link whose URL slug
does contain the business name, and the run still resolves to the terminal
dead-link result with no slug match. -/
theorem c2_dead_link_terminal_witness :
    UrlVerify.verify_url ⟨Except.ok 404, Except.error (), Except.error ()⟩
      "https://dir.com/acme-dental".toList "Acme Dental".toList
      = ⟨false, some "Dead Link (404/410)".toList, none⟩ :=
  c2_dead_link_terminal ⟨Except.ok 404, Except.error (), Except.error ()⟩
    "https://dir.com/acme-dental".toList "Acme Dental".toList
    (by decide) (by decide) (Or.inl ⟨404, rfl, Or.inl rfl⟩)

/-- Counterexample to claim C3 as stated: a `verify_nap` call whose fetched
content is detected as blocked returns status `'found'`, not `'blocked'`. -/
theorem c3_blocked_status_counterexample :
    NapVerify.blockDetected (NapVerify.normalize_text
      "403 forbidden - access denied".toList) = true ∧
    (NapVerify.verify_nap (fun _ => "403 forbidden - access denied".toList) (fun _ _ => 0)
      (some "https://www.yelp.com/biz/x".toList) "Acme Dental".toList
      "512-555-0100".toList [] none).status = "found".toList ∧
    "found".toList ≠ "blocked".toList :=
  ⟨by decide, by decide, by decide⟩

/-- Claim C3 as amended: for every `verify_nap` call whose fetched content is
detected as blocked, the returned record has status `'found'` (the source
keeps the URL as valid), confidence 0, all four field flags null, and the
details string naming the likely blocking directory. -/
theorem c3_blocked_shortcircuit (fetch : Str → Str) (pr : Str → Str → Nat)
    (u business_name phone : Str) (address_parts : List Str) (website_url : Option Str)
    (hval : "http".toList.isPrefixOf u = true)
    (hc : (fetch u).isEmpty = false)
    (hb : NapVerify.blockDetected (NapVerify.normalize_text (fetch u)) = true) :
    NapVerify.verify_nap fetch pr (some u) business_name phone address_parts website_url
      = ⟨"found".toList, 0, NapVerify.blockedDetails u, none, none, none, none⟩ := by
  have hne : u.isEmpty = false := by
    cases u with
    | nil => exact absurd hval (by decide)
    | cons c t => rfl
  simp only [NapVerify.verify_nap]
  rw [if_neg (by rw [hne, hval]; decide), if_neg (by rw [hc]; decide), if_pos hb]
  rfl

/-- Witness for the amended C3 at a concrete blocked fetch: the details name
the blocking directory (`Zocdoc`). -/
theorem c3_blocked_shortcircuit_witness :
    NapVerify.verify_nap (fun _ => "403 forbidden - access denied".toList) (fun _ _ => 0)
      (some "https://zocdoc.com/x".toList) "Acme Dental".toList
      "512-555-0100".toList [] none
      = ⟨"found".toList, 0, "Scraper blocked by Zocdoc. NAP checks require manual verification.".toList,
          none, none, none, none⟩ := by
  rw [c3_blocked_shortcircuit (fun _ => "403 forbidden - access denied".toList) (fun _ _ => 0)
    "https://zocdoc.com/x".toList "Acme Dental".toList "512-555-0100".toList [] none
    (by decide) (by decide) (by decide)]
  decide

/-- Counterexample to claim C4 as stated: a run whose search results exist
but classify as none of profile/doctor/list, and whose page-fetch fallback
would accept the top uncertain result (`validate` answers true for it),
still returns `not_found` with `match_reason` `uncertain_results` — no
fallback outcome is consulted, because line 553 returns unconditionally
before the fallback code. -/
theorem c4_uncertain_counterexample :
    (⟨fun _ _ => [⟨"https://yelp.com/biz/xyz".toList, "Some Other Title".toList,
        "irrelevant".toList⟩], fun _ => true,
      some ("https://yelp.com/biz/acme-plumbing".toList, "Acme Plumbing".toList)⟩ :
      ProfileDiscover.DiscoverOracle).validate "https://yelp.com/biz/xyz".toList = true ∧
    ProfileDiscover.discover_profile_url
      ⟨fun _ _ => [⟨"https://yelp.com/biz/xyz".toList, "Some Other Title".toList,
        "irrelevant".toList⟩], fun _ => true,
        some ("https://yelp.com/biz/acme-plumbing".toList, "Acme Plumbing".toList)⟩
      "Yelp".toList "yelp.com".toList "Acme Plumbing".toList [] "Austin".toList
      "TX".toList []
      = ⟨"not_found".toList, [], [], "uncertain_results".toList,
          [⟨"https://yelp.com/biz/xyz".toList, "Some Other Title".toList,
            "irrelevant".toList⟩]⟩ :=
  ⟨by decide, by decide⟩

/-- Claim C4 as amended: for every `discover_profile_url` run in which the
search returned results but none classified as profile_match, doctor_match
or list_match, the resolver returns `not_found` with `match_reason`
`uncertain_results` and the raw results as candidates immediately; the
page-fetch validation of uncertain results and the internal-search fallback
are unreachable (dead code after the return of line 553), so the result does
not depend on their would-be outcomes (`v` and `d` are arbitrary here). -/
theorem c4_uncertain_returns_immediately
    (search : Str → Str → List ProfileDiscover.SearchResult)
    (v : Str → Bool) (d : Option (Str × Str))
    (directory_name directory_domain business_name doctor_name city state country : Str)
    (hskip : ProfileDiscover.skip_domains.contains directory_domain = false)
    (hres : (ProfileDiscover.searchResultsOf search directory_name directory_domain
      business_name doctor_name city state country).isEmpty = false)
    (hp : ProfileDiscover.profileMatchesOf business_name
      (ProfileDiscover.searchResultsOf search directory_name directory_domain
        business_name doctor_name city state country) = [])
    (hd : ProfileDiscover.doctorMatchesOf business_name doctor_name
      (ProfileDiscover.searchResultsOf search directory_name directory_domain
        business_name doctor_name city state country) = [])
    (hl : ProfileDiscover.listMatchesOf business_name doctor_name
      (ProfileDiscover.searchResultsOf search directory_name directory_domain
        business_name doctor_name city state country) = []) :
    ProfileDiscover.discover_profile_url ⟨search, v, d⟩ directory_name directory_domain
      business_name doctor_name city state country
      = ⟨"not_found".toList, [], [], "uncertain_results".toList,
          ProfileDiscover.searchResultsOf search directory_name directory_domain
            business_name doctor_name city state country⟩ := by
  unfold ProfileDiscover.discover_profile_url
  rw [if_neg (by rw [hskip]; decide), if_neg (by rw [hres]; decide)]
  rw [hp, hd, hl]

/-- Witness for the amended C4 at a concrete uncertain run. -/
theorem c4_uncertain_returns_immediately_witness :
    ProfileDiscover.discover_profile_url
      ⟨fun _ _ => [⟨"https://hotfrog.com/co/9".toList, "Another Biz".toList, "".toList⟩],
        fun _ => false, none⟩
      "Hotfrog".toList "hotfrog.com".toList "Acme Plumbing".toList [] "Austin".toList
      "TX".toList []
      = ⟨"not_found".toList, [], [], "uncertain_results".toList,
          ProfileDiscover.searchResultsOf
            (fun _ _ => [⟨"https://hotfrog.com/co/9".toList, "Another Biz".toList, "".toList⟩])
            "Hotfrog".toList "hotfrog.com".toList "Acme Plumbing".toList [] "Austin".toList
            "TX".toList []⟩ :=
  c4_uncertain_returns_immediately
    (fun _ _ => [⟨"https://hotfrog.com/co/9".toList, "Another Biz".toList, "".toList⟩])
    (fun _ => false) none
    "Hotfrog".toList "hotfrog.com".toList "Acme Plumbing".toList [] "Austin".toList
    "TX".toList []
    (by decide) (by decide) (by decide) (by decide) (by decide)

/-- Counterexample to claim C5 as stated: with a website URL supplied whose
domain does not appear in the content, `website_ok` is `false` even though
one of the enumerated "visit our website"-style phrases is present — the
source computes the phrase test but never uses it. -/
theorem c5_phrase_ignored_counterexample :
    NapVerify.websitePhraseFound
      (NapVerify.normalize_text "please visit website today".toList) = true ∧
    isSubOf (NapVerify.websiteDomainOf "http://acme.com".toList)
      (NapVerify.normalize_text "please visit website today".toList) = false ∧
    (NapVerify.verify_nap (fun _ => "please visit website today".toList) (fun _ _ => 0)
      (some "http://dir.com/acme".toList) "Acme Dental".toList "".toList []
      (some "http://acme.com".toList)).nap_website_ok = some false :=
  ⟨by decide, by decide, by decide⟩

/-- Claim C5 as amended: for every `verify_nap` call on the normal scoring
path, `nap_website_ok` is null when no website URL (or an empty one) was
supplied, and otherwise is true exactly when the website domain is non-empty
and literally appears in the normalized content — the "visit our
website"-style phrases never make it true. -/
theorem c5_website_flag_is_domain_only (fetch : Str → Str) (pr : Str → Str → Nat)
    (u business_name phone : Str) (address_parts : List Str) (website_url : Option Str)
    (hval : "http".toList.isPrefixOf u = true)
    (hc : (fetch u).isEmpty = false)
    (hb : NapVerify.blockDetected (NapVerify.normalize_text (fetch u)) = false) :
    (NapVerify.verify_nap fetch pr (some u) business_name phone address_parts
      website_url).nap_website_ok
      = NapVerify.websiteOkOf website_url (NapVerify.normalize_text (fetch u)) := by
  rw [verify_nap_scored fetch pr u business_name phone address_parts website_url hval hc hb]
  exact scoredResult_nap_website_ok fetch pr u business_name phone address_parts website_url

/-- Witness for the amended C5: the domain appears, so the flag is true. -/
theorem c5_website_flag_is_domain_only_witness :
    (NapVerify.verify_nap (fun _ => "see acme.com here".toList) (fun _ _ => 0)
      (some "http://dir.com/acme".toList) "Acme Dental".toList "".toList []
      (some "http://acme.com".toList)).nap_website_ok
      = NapVerify.websiteOkOf (some "http://acme.com".toList)
          (NapVerify.normalize_text "see acme.com here".toList) ∧
    NapVerify.websiteOkOf (some "http://acme.com".toList)
      (NapVerify.normalize_text "see acme.com here".toList) = some true :=
  ⟨c5_website_flag_is_domain_only (fun _ => "see acme.com here".toList) (fun _ _ => 0)
    "http://dir.com/acme".toList "Acme Dental".toList "".toList []
    (some "http://acme.com".toList) (by decide) (by decide) (by decide),
   by decide⟩

/-- Counterexample to claim C6 as stated: a non-empty stored phone whose
digit form (7 digits) occurs contiguously in the digit-normalized content
still gets `nap_phone_ok = false`, because the source additionally requires
at least 10 digits. -/
theorem c6_short_phone_counterexample :
    "555-0100".toList ≠ [] ∧
    isSubOf (NapVerify.normalize_phone "555-0100".toList)
      (digitsOf "call 5550100 now".toList) = true ∧
    (NapVerify.verify_nap (fun _ => "call 5550100 now".toList) (fun _ _ => 0)
      (some "http://dir.com/acme".toList) "Acme Dental".toList "555-0100".toList []
      none).nap_phone_ok = some false :=
  ⟨by decide, by decide, by decide⟩

/-- Claim C6 as amended: on the normal scoring path, `nap_phone_ok` is true
iff the digit-normalized stored phone has at least 10 digits AND is a
contiguous substring of the digit-normalized page content. -/
theorem c6_phone_flag_needs_ten_digits (fetch : Str → Str) (pr : Str → Str → Nat)
    (u business_name phone : Str) (address_parts : List Str) (website_url : Option Str)
    (hval : "http".toList.isPrefixOf u = true)
    (hc : (fetch u).isEmpty = false)
    (hb : NapVerify.blockDetected (NapVerify.normalize_text (fetch u)) = false) :
    (NapVerify.verify_nap fetch pr (some u) business_name phone address_parts
      website_url).nap_phone_ok
      = some (decide (10 ≤ (NapVerify.normalize_phone phone).length)
          && isSubOf (NapVerify.normalize_phone phone) (digitsOf (fetch u))) := by
  rw [verify_nap_scored fetch pr u business_name phone address_parts website_url hval hc hb,
    scoredResult_nap_phone_ok]
  simp only [NapVerify.phoneScoreOf]
  by_cases h10 : 10 ≤ (NapVerify.normalize_phone phone).length
  · have hne : (NapVerify.normalize_phone phone).isEmpty = false := by
      cases hpn : NapVerify.normalize_phone phone with
      | nil => rw [hpn] at h10; exact absurd h10 (by decide)
      | cons c t => rfl
    rw [hne]
    simp only [decide_eq_true h10, Bool.not_false, Bool.true_and]
    cases hsub : isSubOf (NapVerify.normalize_phone phone) (digitsOf (fetch u)) with
    | false => rw [if_neg (by decide)]; rfl
    | true => rw [if_pos (by decide)]; rfl
  · have hd : decide (10 ≤ (NapVerify.normalize_phone phone).length) = false :=
      decide_eq_false h10
    rw [if_neg (by rw [hd]; simp)]
    rw [hd, Bool.false_and]
    rfl

/-- Witness for the amended C6: a 10-digit phone present in the content. -/
theorem c6_phone_flag_needs_ten_digits_witness :
    (NapVerify.verify_nap (fun _ => "call 512 555 0100".toList) (fun _ _ => 0)
      (some "http://dir.com/acme".toList) "Acme Dental".toList "512-555-0100".toList []
      none).nap_phone_ok
      = some (decide (10 ≤ (NapVerify.normalize_phone "512-555-0100".toList).length)
          && isSubOf (NapVerify.normalize_phone "512-555-0100".toList)
              (digitsOf "call 512 555 0100".toList)) ∧
    (decide (10 ≤ (NapVerify.normalize_phone "512-555-0100".toList).length)
      && isSubOf (NapVerify.normalize_phone "512-555-0100".toList)
          (digitsOf "call 512 555 0100".toList)) = true :=
  ⟨c6_phone_flag_needs_ten_digits (fun _ => "call 512 555 0100".toList) (fun _ _ => 0)
    "http://dir.com/acme".toList "Acme Dental".toList "512-555-0100".toList [] none
    (by decide) (by decide) (by decide),
   by decide⟩

/-- Claim C7: the domain-identity check accepts `ada.org` for "American
Dental Association" (the acronym of the significant words is a token of the
TLD-stripped domain) and rejects `randomblog.com` for the same name (a
3-significant-word name needs at least 2 literal keyword hits). -/
theorem c7_domain_identity :
    Discovery.domain_matches_name "ada.org".toList
      "American Dental Association".toList = true ∧
    Discovery.domain_matches_name "randomblog.com".toList
      "American Dental Association".toList = false :=
  ⟨by decide, by decide⟩

/-- Claim C8: a candidate URL ending in `.com.au` is excluded by the
foreign-TLD rule when the target country is "United States", and is not
excluded by that rule when the target country is "Australia". -/
theorem c8_foreign_tld_rule :
    Discovery.excluded_by_foreign_tld "https://bestremovalists.com.au".toList
      "United States".toList = true ∧
    Discovery.excluded_by_foreign_tld "https://bestremovalists.com.au".toList
      "Australia".toList = false :=
  ⟨by decide, by decide⟩

/-- Claim C9: `discover_directories` degrades to the empty list on every
failure — a non-200 collaborator response, and every exception point of the
body (request exception, unparseable response JSON, unexpected response
shape, unparseable content) caught by the outer handler.  Being a total
function into `List DirEntry`, it never propagates an exception. -/
theorem c9_discover_degrades_to_empty (o : Discovery.DiscoveryOracle)
    (h : (∃ s j, o.post = Except.ok (s, j) ∧ s ≠ 200) ∨
      (∃ e, Discovery.discover_directories_body o = Except.error e)) :
    Discovery.discover_directories o = [] := by
  rcases h with ⟨s, j, hpost, hs⟩ | ⟨e, herr⟩
  · have hne : (s != 200) = true := by simpa using hs
    have hbody : Discovery.discover_directories_body o = Except.ok [] := by
      simp only [Discovery.discover_directories_body, hpost]
      rw [if_pos hne]
    unfold Discovery.discover_directories
    rw [hbody]
  · unfold Discovery.discover_directories
    rw [herr]

/-- Witness for C9: a 500 response yields the empty list. -/
theorem c9_discover_degrades_to_empty_witness :
    Discovery.discover_directories
      ⟨Except.ok (500, none), fun _ => none, fun l => l⟩ = [] :=
  c9_discover_degrades_to_empty ⟨Except.ok (500, none), fun _ => none, fun l => l⟩
    (Or.inl ⟨500, none, rfl, by decide⟩)

/-- Claim C10: for every `verify_nap` call whose URL is `None`, empty, or
does not begin with `http`, the result is status `not_found`, confidence 0
and details `Invalid URL`, and no page fetch is attempted — the result is
the same for every fetch oracle. -/
theorem c10_invalid_url_short_circuit (f g : Str → Str) (pr : Str → Str → Nat)
    (url : Option Str) (business_name phone : Str) (address_parts : List Str)
    (website_url : Option Str)
    (h : url = none ∨ ∃ u, url = some u ∧ "http".toList.isPrefixOf u = false) :
    NapVerify.verify_nap f pr url business_name phone address_parts website_url
      = ⟨"not_found".toList, 0, "Invalid URL".toList, none, none, none, none⟩ ∧
    NapVerify.verify_nap f pr url business_name phone address_parts website_url
      = NapVerify.verify_nap g pr url business_name phone address_parts website_url := by
  have key : ∀ (k : Str → Str),
      NapVerify.verify_nap k pr url business_name phone address_parts website_url
        = ⟨"not_found".toList, 0, "Invalid URL".toList, none, none, none, none⟩ := by
    intro k
    rcases h with rfl | ⟨u, rfl, hpre⟩
    · rfl
    · simp only [NapVerify.verify_nap]
      rw [if_pos (by rw [hpre]; simp)]
      rfl
  exact ⟨key f, (key f).trans (key g).symm⟩

/-- Witness for C10: a URL not starting with `http` yields the invalid-URL
record under two different fetch oracles. -/
theorem c10_invalid_url_short_circuit_witness :
    NapVerify.verify_nap (fun _ => "page content".toList) (fun _ _ => 0)
      (some "ftp://x.com".toList) "Acme Dental".toList "512-555-0100".toList [] none
      = ⟨"not_found".toList, 0, "Invalid URL".toList, none, none, none, none⟩ ∧
    NapVerify.verify_nap (fun _ => "page content".toList) (fun _ _ => 0)
      (some "ftp://x.com".toList) "Acme Dental".toList "512-555-0100".toList [] none
      = NapVerify.verify_nap (fun _ => [].asString.toList) (fun _ _ => 0)
        (some "ftp://x.com".toList) "Acme Dental".toList "512-555-0100".toList [] none :=
  c10_invalid_url_short_circuit (fun _ => "page content".toList)
    (fun _ => [].asString.toList) (fun _ _ => 0) (some "ftp://x.com".toList)
    "Acme Dental".toList "512-555-0100".toList [] none
    (Or.inr ⟨"ftp://x.com".toList, rfl, by decide⟩)
